import Mathlib

/-!
Verification development for the TerminalAI chat client (src/main.py).

The Python program is a single class `GeminiChat` plus a CLI wrapper. We give a
shallow embedding of the parts the specification talks about:

* `is_file_accessible` (main.py lines 26-35): path allow-listing. Path
  resolution (`Path(...).resolve()`) is modelled by an explicit oracle
  `resolve : String → Option String`; `none` models a raised exception, which
  the Python code catches and converts to `False`.
* `upload_file_to_gemini` (lines 37-151): the resumable-upload handshake.
  Network I/O is modelled by oracles carried in an `UploadEnv`; the function
  returns its result value, the list of network requests it issued (in order),
  and the updated `uploaded_files` map.
* `wait_for_file_processing` (lines 153-183): the polling loop. Time is
  modelled idealised: each iteration of the Python loop costs exactly the
  2-second `time.sleep(2)` (poll requests themselves are instantaneous), so
  the wall-clock guard `time.time() - start_time < max_wait` admits exactly
  those iterations `i` with `2 * i < max_wait`, i.e. `(max_wait + 1) / 2`
  iterations.  The loop body is `pollLoop`, recursing on that budget.
* `call_gemini` (lines 344-399): the chat round trip over the conversation
  store, with the remote response modelled by `GenNetResult`.
* `process_message` (lines 292-342): the command router.  The `/read`, `/ls`,
  `/help` and `/dirs` handlers delegate to oracles in `ShellEnv` for the parts
  (filesystem, remote) that are external to the routing itself.
* `read_file_content`'s category decision (lines 205-259) as `classify`, and
  its video branch (lines 209-222) as `read_file_content_video`.

Console `print` calls are not modelled (they do not affect any state or
returned value); comments note where they occur.
-/

/-- Models Python `str.startswith`: `startswith s p` is `p` a prefix of `s`. -/
def startswith (s p : String) : Bool :=
  p.toList.isPrefixOf s.toList

/-- Does `sub` occur as a contiguous run inside the second list. -/
def occursWithin (sub : List Char) : List Char → Bool
  | [] => sub.isEmpty
  | a :: as => sub.isPrefixOf (a :: as) || occursWithin sub as

/-- `containsSubstr s sub` is Python `sub in s`: does `sub` occur in `s`. -/
def containsSubstr (s sub : String) : Bool :=
  occursWithin sub.toList s.toList

/-- One content part of a conversation turn, mirroring the dicts the Python
code appends: `{"text": ...}`, `{"inline_data": {...}}`, `{"file_data": {...}}`. -/
inductive ContentPart where
  | text (s : String)
  | inline_data (mime_type data : String)
  | file_data (file_uri mime_type : String)
deriving DecidableEq, Repr

/-- One conversation turn: `{"role": ..., "parts": [...]}`. -/
structure Turn where
  role : String
  parts : List ContentPart
deriving DecidableEq, Repr

/-- The value stored in `self.uploaded_files[file_path]` (main.py lines
129-134): uri, remote name (`result.get('file',{}).get('name')`, which may be
absent), mime type and size. -/
structure FileInfo where
  uri : String
  name : Option String
  mime_type : String
  size : Nat
deriving DecidableEq, Repr

/-- The mutable state of a `GeminiChat` object that the claims are about:
`self.conversation_history` and `self.uploaded_files` (a Python dict,
modelled as an insertion-ordered association list). -/
structure ChatState where
  conversation_history : List Turn
  uploaded_files : List (String × FileInfo)
deriving DecidableEq, Repr

/-- Result of one `requests` call: a parsed response, or a raised
`requests` exception (timeouts and transport errors alike, which the
enclosing Python handlers treat uniformly where this type is used). -/
inductive Req (α : Type) where
  | ok (a : α)
  | exn (msg : String)
deriving Repr

/-- `GeminiChat.is_file_accessible` (main.py lines 26-35).
`resolve` models `Path(file_path).resolve()`; `none` models an exception,
caught by the `except Exception: return False` clause.  `allowed_dirs` holds
the already-resolved string forms of `self.allowed_dirs`. -/
def is_file_accessible (resolve : String → Option String)
    (allowed_dirs : List String) (file_path : String) : Bool :=
  match resolve file_path with
  | none => false
  | some rp => allowed_dirs.any (fun d => startswith rp d)

/-- The `video_formats` dict of `upload_file_to_gemini` (main.py lines 50-59). -/
def video_formats : List (String × String) :=
  [(".mp4", "video/mp4"), (".avi", "video/x-msvideo"), (".mov", "video/quicktime"),
   (".mkv", "video/x-matroska"), (".webm", "video/webm"), (".flv", "video/x-flv"),
   (".wmv", "video/x-ms-wmv"), (".m4v", "video/mp4")]

/-- `max_size = 2 * 1024 * 1024 * 1024` (main.py line 68). -/
def max_size : Nat := 2 * 1024 * 1024 * 1024

/-- Tenths of a gigabyte, rounding half up: models the value displayed by
Python `f"{file_size / (1024*1024*1024):.1f}"` (exact rational rounding;
Python's binary-float tie behaviour can differ only on exact ties, which do
not arise for the sizes considered here). -/
def gb_tenths (bytes : Nat) : Nat :=
  (bytes * 10 + 536870912) / 1073741824

/-- The `:.1f`-formatted gigabyte figure. -/
def fmt_gb_1f (bytes : Nat) : String :=
  toString (gb_tenths bytes / 10) ++ "." ++ toString (gb_tenths bytes % 10)

/-- The error string of main.py line 70. -/
def file_too_large_msg (bytes : Nat) : String :=
  "File too large: " ++ fmt_gb_1f bytes ++ "GB (max 2GB)"

/-- Parsed response of the session-initiation POST (main.py lines 91-106):
status code, the `X-Goog-Upload-URL` response header (may be absent), and the
raw body text (`response.text`). -/
structure SessionResp where
  status : Nat
  uploadUrl : Option String
  bodyText : String
deriving DecidableEq, Repr

/-- Parsed response of the content-transfer POST (main.py lines 118-147):
status code, `result.get('file',{}).get('uri')`, `result.get('file',{}).get('name')`,
and the raw body text. -/
structure ContentResp where
  status : Nat
  fileUri : Option String
  fileName : Option String
  bodyText : String
deriving DecidableEq, Repr

/-- Parsed response of one status poll GET (main.py lines 161-168): status
code and `result.get('state', 'PROCESSING')` (the default already applied). -/
structure PollResp where
  status : Nat
  state : String
deriving DecidableEq, Repr

/-- Terminal outcomes of the polling loop in `wait_for_file_processing`.
In Python the function returns `None` in every case and only prints; this
value records which exit was taken:
`Active` = `state == 'ACTIVE'` return (line 170-172),
`Failed` = `state == 'FAILED'` return (line 173-175),
`Aborted` = exception during a poll, `break` out of the loop (lines 179-181),
`TimedOut` = the wall-clock guard `time.time() - start_time < max_wait`
failed (line 159, falling through to line 183). -/
inductive ProcessingOutcome where
  | Active
  | Failed
  | Aborted
  | TimedOut
deriving DecidableEq, Repr

/-- The `while` loop of `wait_for_file_processing` (main.py lines 159-181),
recursing on the remaining iteration budget (see the module comment for the
idealised time model).  The second result component counts the polls issued. -/
def pollLoop (polls : Nat → Req PollResp) : Nat → Nat → ProcessingOutcome × Nat
  | 0, k => (ProcessingOutcome.TimedOut, k)
  | budget + 1, k =>
    match polls k with
    | Req.exn _ => (ProcessingOutcome.Aborted, k + 1)
    | Req.ok r =>
      if r.status = 200 then
        if r.state = "ACTIVE" then (ProcessingOutcome.Active, k + 1)
        else if r.state = "FAILED" then (ProcessingOutcome.Failed, k + 1)
        else pollLoop polls budget (k + 1)
      else pollLoop polls budget (k + 1)

/-- `GeminiChat.wait_for_file_processing` (main.py lines 153-183).
`file_name` is the argument (Python `None` and `""` are both falsy at the
`if not file_name: return` guard, modelled as `none` here).  Returns `none`
when the guard returns early, otherwise the loop outcome and poll count. -/
def wait_for_file_processing (file_name : Option String)
    (polls : Nat → Req PollResp) (max_wait : Nat) : Option (ProcessingOutcome × Nat) :=
  match file_name with
  | none => none
  | some nm =>
    if nm = "" then none
    else some (pollLoop polls ((max_wait + 1) / 2) 0)

/-- Number of polls issued by a `wait_for_file_processing` call with the
fixed `max_wait = 300` used at the call site (main.py line 138). -/
def poll_count (file_name : Option String) (polls : Nat → Req PollResp) : Nat :=
  match wait_for_file_processing file_name polls 300 with
  | none => 0
  | some pr => pr.2

/-- Return value of `upload_file_to_gemini`: Python `None`, an
`{"error": msg}` dict, or the `{'uri': ..., 'mime_type': ...}` dict. -/
inductive UploadResult where
  | nothing
  | error (msg : String)
  | success (uri mime_type : String)
deriving DecidableEq, Repr

/-- A network request issued by the uploader, recorded in issue order. -/
inductive NetRequest where
  | startSession
  | sendContent
  | pollStatus (k : Nat)
deriving DecidableEq, Repr

/-- Environment of one `upload_file_to_gemini` call: the filesystem facts for
the given path (`resolve` for `is_file_accessible`, existence, the lowercased
suffix `path.suffix.lower()`, the size `path.stat().st_size`) and the remote's
responses to the session-start POST, the content POST and the status polls. -/
structure UploadEnv where
  resolve : String → Option String
  allowed_dirs : List String
  fileExists : Bool
  suffix : String
  file_size : Nat
  sessionResp : Req SessionResp
  contentResp : Req ContentResp
  polls : Nat → Req PollResp

/-- Python dict assignment `m[k] = v` on an insertion-ordered map. -/
def assocSet (m : List (String × FileInfo)) (k : String) (v : FileInfo) :
    List (String × FileInfo) :=
  if m.any (fun pr => pr.1 == k) then
    m.map (fun pr => if pr.1 == k then (k, v) else pr)
  else m ++ [(k, v)]

/-- `GeminiChat.upload_file_to_gemini` (main.py lines 37-151).  Returns the
Python return value, the list of network requests issued, and the updated
`self.uploaded_files` map.  Branches, in source order:
access guard (line 39), existence (line 44), video-format dict lookup
(line 61), size cap (lines 67-70), session POST (lines 91-106), content POST
(lines 118-147) with `wait_for_file_processing` called for its side effect
before the success return (line 138); the `requests` exceptions of either
POST are caught by the enclosing `except Exception` (lines 149-151). -/
def upload_file_to_gemini (env : UploadEnv) (file_path : String)
    (uploaded : List (String × FileInfo)) :
    UploadResult × List NetRequest × List (String × FileInfo) :=
  if !(is_file_accessible env.resolve env.allowed_dirs file_path) then
    (UploadResult.nothing, [], uploaded)
  else if !env.fileExists then
    (UploadResult.nothing, [], uploaded)
  else
    match video_formats.lookup env.suffix with
    | none => (UploadResult.nothing, [], uploaded)
    | some mime_type =>
      if env.file_size > max_size then
        (UploadResult.error (file_too_large_msg env.file_size), [], uploaded)
      else
        match env.sessionResp with
        | Req.exn e =>
          (UploadResult.error ("Error uploading file: " ++ e),
            [NetRequest.startSession], uploaded)
        | Req.ok sr =>
          if sr.status ≠ 200 then
            (UploadResult.error ("Upload session failed: " ++ toString sr.status),
              [NetRequest.startSession], uploaded)
          else
            match sr.uploadUrl with
            | none =>
              (UploadResult.error "No upload URL received",
                [NetRequest.startSession], uploaded)
            | some _ =>
              match env.contentResp with
              | Req.exn e =>
                (UploadResult.error ("Error uploading file: " ++ e),
                  [NetRequest.startSession, NetRequest.sendContent], uploaded)
              | Req.ok cr =>
                if cr.status = 200 then
                  match cr.fileUri with
                  | some uri =>
                    let uploaded2 := assocSet uploaded file_path
                      ⟨uri, cr.fileName, mime_type, env.file_size⟩
                    let k := poll_count cr.fileName env.polls
                    (UploadResult.success uri mime_type,
                      [NetRequest.startSession, NetRequest.sendContent] ++
                        (List.range k).map NetRequest.pollStatus,
                      uploaded2)
                  | none =>
                    (UploadResult.error
                        ("Upload failed: " ++ toString cr.status ++ " - " ++ cr.bodyText),
                      [NetRequest.startSession, NetRequest.sendContent], uploaded)
                else
                  (UploadResult.error
                      ("Upload failed: " ++ toString cr.status ++ " - " ++ cr.bodyText),
                    [NetRequest.startSession, NetRequest.sendContent], uploaded)

/-- The video branch of `GeminiChat.read_file_content` (main.py lines
209-222): how the upload result is turned into the content part for the
conversation turn.  `'uri' in upload_result` selects the `file_data` part;
`'error' in upload_result` and `None` become text parts. -/
def read_file_content_video (upload_result : UploadResult) (file_path : String) :
    ContentPart :=
  match upload_result with
  | UploadResult.success uri mime => ContentPart.file_data uri mime
  | UploadResult.error e => ContentPart.text ("❌ " ++ e)
  | UploadResult.nothing => ContentPart.text ("❌ Failed to upload video: " ++ file_path)

/-- The `video_extensions` set of `read_file_content` (main.py line 208). -/
def video_extensions : List String :=
  [".mp4", ".avi", ".mov", ".mkv", ".webm", ".flv", ".wmv", ".m4v"]

/-- The `code_extensions` set (main.py lines 233-236). -/
def code_extensions : List String :=
  [".py", ".js", ".html", ".css", ".java", ".cpp", ".c",
   ".h", ".json", ".xml", ".yaml", ".yml", ".md", ".txt",
   ".sh", ".bat", ".ps1", ".sql", ".r", ".php", ".go",
   ".rs", ".swift", ".kt", ".ts", ".jsx", ".tsx", ".vue"]

/-- The `image_extensions` set (main.py line 246). -/
def image_extensions : List String :=
  [".jpg", ".jpeg", ".png", ".gif", ".bmp", ".webp"]

/-- The file categories distinguished by `read_file_content`. -/
inductive Category where
  | Video
  | TextLike
  | Image
  | Opaque
deriving DecidableEq, Repr

/-- The category decision of `GeminiChat.read_file_content` (main.py lines
205-259), in the source's branch order: video-extension check (line 209)
first, then the `mime_type.startswith('text/')` check (line 225), then the
code-extension check (line 238), then the image-extension check (line 247),
else the opaque-binary fallthrough (line 258).  `suffix_lower` is
`path.suffix.lower()`; `mime_type` is the `mimetypes.guess_type` result
(`none` models Python `None`). -/
def classify (suffix_lower : String) (mime_type : Option String) : Category :=
  if video_extensions.contains suffix_lower then Category.Video
  else if (match mime_type with
           | some m => startswith m "text/"
           | none => false) then Category.TextLike
  else if code_extensions.contains suffix_lower then Category.TextLike
  else if image_extensions.contains suffix_lower then Category.Image
  else Category.Opaque

/-- Parsed response of the `generateContent` POST when no exception was
raised (main.py lines 369-392): status code, the texts
`candidates[i]['content']['parts'][0]['text']` (empty list models a missing
or empty `candidates` field), and the error details echoed for non-200
responses (`response.json()` or `response.text`, line 391). -/
structure GenResp where
  status : Nat
  candidates : List String
  errorBody : String
deriving Repr

/-- Result of the `generateContent` call, matching the `except` arms of
`call_gemini` (main.py lines 394-399): `requests.exceptions.Timeout`,
`requests.exceptions.RequestException`, and the generic `Exception` arm
(which also covers response-shape errors while indexing the parsed JSON). -/
inductive GenNetResult where
  | ok (r : GenResp)
  | timeout
  | requestError (e : String)
  | otherError (e : String)
deriving Repr

/-- The failure cases of `call_gemini` (main.py lines 376-399): a non-200
response, a 200 response with no candidate, a request timeout, a transport
error, or any other exception. -/
def gen_failure : GenNetResult → Prop
  | GenNetResult.ok r => r.status ≠ 200 ∨ r.candidates = []
  | GenNetResult.timeout => True
  | GenNetResult.requestError _ => True
  | GenNetResult.otherError _ => True

/-- The user turn appended by `call_gemini` (main.py lines 348-351). -/
def user_turn (msg : String) : Turn :=
  ⟨"user", [ContentPart.text msg]⟩

/-- The model turn appended by `call_gemini` (main.py lines 382-385). -/
def model_turn (msg : String) : Turn :=
  ⟨"model", [ContentPart.text msg]⟩

/-- The `"contents"` field of the request body of `call_gemini` (main.py
lines 359-360): the conversation history after the user turn is appended. -/
def gemini_contents (message : String) (st : ChatState) : List Turn :=
  st.conversation_history ++ [user_turn message]

/-- `GeminiChat.call_gemini` (main.py lines 344-399): append the user turn,
send the history, and on HTTP 200 with a first candidate append the model
turn and return its text; otherwise return the error string.  The user turn
is appended before the request and no branch removes it. -/
def call_gemini (message : String) (resp : GenNetResult) (st : ChatState) :
    String × ChatState :=
  let st1 : ChatState := { st with conversation_history := gemini_contents message st }
  match resp with
  | GenNetResult.ok r =>
    if r.status = 200 then
      match r.candidates with
      | [] => ("❌ No response generated", st1)
      | c :: _ =>
        (c, { st1 with conversation_history := st1.conversation_history ++ [model_turn c] })
    else
      ("❌ API Error (" ++ toString r.status ++ "): " ++ r.errorBody, st1)
  | GenNetResult.timeout => ("❌ Request timed out. Please try again.", st1)
  | GenNetResult.requestError e => ("❌ Network error: " ++ e, st1)
  | GenNetResult.otherError e => ("❌ Error: " ++ e, st1)

/-- `GeminiChat.delete_uploaded_file` (main.py lines 185-194): success is
exactly HTTP 204; any exception yields `false`. -/
def delete_uploaded_file (resp : Req Nat) : Bool :=
  match resp with
  | Req.ok status => status == 204
  | Req.exn _ => false

/-- The `cleaned` counter of the `/cleanup` handler (main.py lines 322-327):
for each entry in iteration order, count it when its remote `name` is present,
non-empty and the DELETE succeeds. -/
def cleanup_count (deleteResp : String → Req Nat)
    (files : List (String × FileInfo)) : Nat :=
  files.foldl
    (fun acc pr =>
      match pr.2.name with
      | some nm =>
        if nm != "" && delete_uploaded_file (deleteResp nm) then acc + 1 else acc
      | none => acc)
    0

/-- Models Python `s.split(maxsplit=1)[1]` guarded by `len(s.split()) > 1`
(main.py line 310): the remainder after the first space-delimited word, with
the separating spaces stripped; `none` when there is no second word.
(Python also splits on other whitespace; the command lines concerned here
use plain spaces.) -/
def split_rest (s : String) : Option String :=
  let rest := ((s.toList.dropWhile (fun c => c != ' ')).dropWhile (fun c => c == ' '))
  if rest.isEmpty then none else some (String.mk rest)

/-- `GeminiChat.show_help` (main.py lines 401-436), abridged to its first
line; the full banner text is irrelevant to every routed-command claim. -/
def show_help : String :=
  "\n🤖 Gemini Terminal Chat Commands:\n"

/-- Environment of one `process_message` call: the oracles for the handlers
that touch the filesystem or the remote.  `read_file_content` models
`GeminiChat.read_file_content` for the given path (`none` is Python `None`);
`list_files` models `GeminiChat.list_files`; `genResp` is the remote's
response to the (single) `generateContent` call of this turn; `deleteResp`
gives the DELETE response per remote file name; `allowed_dirs` is
`self.allowed_dirs` as strings. -/
structure ShellEnv where
  read_file_content : String → Option ContentPart
  list_files : String → String
  genResp : GenNetResult
  deleteResp : String → Req Nat
  allowed_dirs : List String

/-- `GeminiChat.process_message` (main.py lines 292-342): prefix dispatch in
source order.  The `/uploads` branch with a non-empty map builds `files_info`
and then falls off the end of the function without a `return`, so the Python
function returns `None` — modelled as `none` (the built list is dead local
state and is not reproduced).  Every other branch returns a string. -/
def process_message (env : ShellEnv) (user_input : String) (st : ChatState) :
    Option String × ChatState :=
  if startswith user_input "/read " then
    let file_path := (user_input.drop 6).trim
    match env.read_file_content file_path with
    | some file_content =>
      let st1 : ChatState := { st with conversation_history :=
        st.conversation_history ++ [Turn.mk "user" [file_content]] }
      let pr := call_gemini ("I've shared the file " ++ file_path ++
        " with you. Please analyze it and tell me about its contents.") env.genResp st1
      (some pr.1, pr.2)
    | none => (some ("❌ Cannot access file: " ++ file_path), st)
  else if startswith user_input "/ls" || startswith user_input "/list" then
    let directory := (split_rest user_input).getD "."
    (some (env.list_files directory), st)
  else if startswith user_input "/help" then
    (some show_help, st)
  else if startswith user_input "/clear" then
    (some "🧹 Conversation history cleared", { st with conversation_history := [] })
  else if startswith user_input "/cleanup" then
    let cleaned := cleanup_count env.deleteResp st.uploaded_files
    (some ("🧹 Cleaned up " ++ toString cleaned ++ " uploaded files"),
      { st with uploaded_files := [] })
  else if startswith user_input "/uploads" then
    if st.uploaded_files.isEmpty then (some "📁 No uploaded files", st)
    else (none, st)
  else if startswith user_input "/dirs" then
    (some ("📁 Allowed directories:\n" ++ String.intercalate "\n" env.allowed_dirs), st)
  else
    let pr := call_gemini user_input env.genResp st
    (some pr.1, pr.2)

/-- A concrete upload environment that reaches the polling phase: accessible
path under `/home/user`, an existing `.mp4` of 1000 bytes, a good session
response and a good content response; the poll responses are the parameter. -/
def goodEnv (polls : Nat → Req PollResp) : UploadEnv :=
  ⟨fun p => some ("/home/user/" ++ p), ["/home/user"], true, ".mp4", 1000,
   Req.ok ⟨200, some "https://upload.session", "ok"⟩,
   Req.ok ⟨200, some "https://generativelanguage.googleapis.com/v1beta/files/abc",
     some "files/abc", "body"⟩,
   polls⟩

/-- A remote whose status polls always report FAILED. -/
def pollsFailed : Nat → Req PollResp := fun _ => Req.ok ⟨200, "FAILED"⟩

/-- A remote whose status polls always report PROCESSING. -/
def pollsProcessing : Nat → Req PollResp := fun _ => Req.ok ⟨200, "PROCESSING"⟩

/-- A concrete upload environment whose session-start POST returns HTTP 403
with body `forbidden-raw-body`. -/
def env403 : UploadEnv :=
  ⟨fun p => some ("/home/user/" ++ p), ["/home/user"], true, ".mp4", 1000,
   Req.ok ⟨403, none, "forbidden-raw-body"⟩,
   Req.ok ⟨200, some "https://uri", some "files/abc", "body"⟩,
   fun _ => Req.ok ⟨200, "ACTIVE"⟩⟩

/-- A concrete upload environment for a 2 GiB + 1 byte video. -/
def envBig : UploadEnv :=
  ⟨fun p => some ("/home/user/" ++ p), ["/home/user"], true, ".mp4",
   2147483649,
   Req.ok ⟨200, some "https://upload.session", "ok"⟩,
   Req.ok ⟨200, some "https://uri", some "files/abc", "body"⟩,
   fun _ => Req.ok ⟨200, "ACTIVE"⟩⟩

/-- A concrete shell environment for routing facts. -/
def env0 : ShellEnv :=
  ⟨fun _ => none, fun _ => "", GenNetResult.timeout, fun _ => Req.exn "offline", []⟩

/-- A chat state with one uploaded-file record. -/
def st1 : ChatState :=
  ⟨[], [("clip.mp4", ⟨"https://uri", some "files/abc", "video/mp4", 5⟩)]⟩

/-- Helper: with a session and content response that both succeed, the
uploader's return value is the uri/mime dict whatever the poll responses are
(the result of `wait_for_file_processing` is discarded at main.py line 138). -/
theorem upload_goodEnv_result (polls : Nat → Req PollResp) :
    (upload_file_to_gemini (goodEnv polls) "clip.mp4" []).1 =
      UploadResult.success
        "https://generativelanguage.googleapis.com/v1beta/files/abc" "video/mp4" := rfl

/-- Helper: with every poll answering 200/PROCESSING, the loop exhausts its
iteration budget and reports `TimedOut`, issuing one poll per budget unit. -/
theorem pollLoop_processing (polls : Nat → Req PollResp)
    (h : ∀ i, polls i = Req.ok ⟨200, "PROCESSING"⟩) :
    ∀ b k, pollLoop polls b k = (ProcessingOutcome.TimedOut, k + b) := by
  intro b
  induction b with
  | zero => intro k; rfl
  | succ n ih =>
    intro k
    have hk := h k
    simp only [pollLoop]
    rw [hk]
    show pollLoop polls n (k + 1) = (ProcessingOutcome.TimedOut, k + (n + 1))
    rw [ih (k + 1)]
    have hnk : k + 1 + n = k + (n + 1) := by omega
    rw [hnk]

/-- C1 (amended): a poll reporting FAILED terminates the loop at once — that
very poll is the last request, no retry — and yet `upload_file_to_gemini`
returns the uri/mime dict whenever the content transfer succeeded, whatever
the poll responses, so a FAILED upload still yields a file reference. -/
theorem c1_failed_terminal (polls : Nat → Req PollResp) (b k : Nat)
    (h : polls k = Req.ok ⟨200, "FAILED"⟩) :
    pollLoop polls (b + 1) k = (ProcessingOutcome.Failed, k + 1) ∧
    (upload_file_to_gemini (goodEnv polls) "clip.mp4" []).1 =
      UploadResult.success
        "https://generativelanguage.googleapis.com/v1beta/files/abc" "video/mp4" := by
  constructor
  · simp only [pollLoop]
    rw [h]
    rfl
  · exact upload_goodEnv_result polls

/-- C1 witness: the amended claim at a remote that always answers FAILED. -/
theorem c1_witness :
    pollLoop pollsFailed (0 + 1) 0 = (ProcessingOutcome.Failed, 0 + 1) ∧
    (upload_file_to_gemini (goodEnv pollsFailed) "clip.mp4" []).1 =
      UploadResult.success
        "https://generativelanguage.googleapis.com/v1beta/files/abc" "video/mp4" :=
  c1_failed_terminal pollsFailed 0 0 rfl

/-- C1 counterexample: against a remote whose first poll reports FAILED, the
polling loop does end in `Failed` after that one poll, but the uploader still
returns the uri/mime dict and `read_file_content` still turns it into a
`file_data` content part — contradicting the claim that a FAILED upload does
not yield a usable file reference for the conversation turn. -/
theorem c1_counterexample :
    wait_for_file_processing (some "files/abc") pollsFailed 300 =
      some (ProcessingOutcome.Failed, 1) ∧
    (upload_file_to_gemini (goodEnv pollsFailed) "clip.mp4" []).1 =
      UploadResult.success
        "https://generativelanguage.googleapis.com/v1beta/files/abc" "video/mp4" ∧
    read_file_content_video
        (upload_file_to_gemini (goodEnv pollsFailed) "clip.mp4" []).1 "clip.mp4" =
      ContentPart.file_data
        "https://generativelanguage.googleapis.com/v1beta/files/abc" "video/mp4" :=
  ⟨rfl, rfl, rfl⟩

/-- C2: against a remote that never leaves PROCESSING, the loop (2-second
fixed interval, 300-second ceiling measured from the start of processing,
polls idealised as instantaneous) reaches `TimedOut` after exactly
300 / 2 = 150 polls, not one more; and the timeout is soft: the uploader
still returns the already-obtained URI as attachable. -/
theorem c2_timeout_after_150_polls (polls : Nat → Req PollResp)
    (h : ∀ i, polls i = Req.ok ⟨200, "PROCESSING"⟩) :
    wait_for_file_processing (some "files/abc") polls 300 =
      some (ProcessingOutcome.TimedOut, 150) ∧
    (upload_file_to_gemini (goodEnv polls) "clip.mp4" []).1 =
      UploadResult.success
        "https://generativelanguage.googleapis.com/v1beta/files/abc" "video/mp4" := by
  constructor
  · show some (pollLoop polls ((300 + 1) / 2) 0) = some (ProcessingOutcome.TimedOut, 150)
    rw [pollLoop_processing polls h]
  · exact upload_goodEnv_result polls

/-- C2 witness: the claim at a remote that always answers PROCESSING. -/
theorem c2_witness :
    wait_for_file_processing (some "files/abc") pollsProcessing 300 =
      some (ProcessingOutcome.TimedOut, 150) ∧
    (upload_file_to_gemini (goodEnv pollsProcessing) "clip.mp4" []).1 =
      UploadResult.success
        "https://generativelanguage.googleapis.com/v1beta/files/abc" "video/mp4" :=
  c2_timeout_after_150_polls pollsProcessing (fun _ => rfl)

/-- C3 (amended): session-start failure is terminal, creating no record; in
the non-200 case the returned message includes the status code (but not the
raw body, which is only printed to the console); in the 200-without-location
case the message is the fixed `No upload URL received`. -/
theorem c3_session_start_failed (env : UploadEnv) (path : String)
    (uploaded : List (String × FileInfo)) (mt : String) (sr : SessionResp)
    (hacc : is_file_accessible env.resolve env.allowed_dirs path = true)
    (hex : env.fileExists = true)
    (hvf : video_formats.lookup env.suffix = some mt)
    (hsz : ¬ env.file_size > max_size)
    (hs : env.sessionResp = Req.ok sr) :
    (sr.status ≠ 200 →
      upload_file_to_gemini env path uploaded =
        (UploadResult.error ("Upload session failed: " ++ toString sr.status),
         [NetRequest.startSession], uploaded)) ∧
    (sr.status = 200 → sr.uploadUrl = none →
      upload_file_to_gemini env path uploaded =
        (UploadResult.error "No upload URL received",
         [NetRequest.startSession], uploaded)) := by
  constructor
  · intro hne
    simp [upload_file_to_gemini, hacc, hex, hvf, hsz, hs, hne]
  · intro h200 hurl
    simp [upload_file_to_gemini, hacc, hex, hvf, hsz, hs, h200, hurl]

/-- C3 witness: the non-200 arm at the concrete 403 environment. -/
theorem c3_witness :
    upload_file_to_gemini env403 "clip.mp4" [] =
      (UploadResult.error "Upload session failed: 403",
       [NetRequest.startSession], ([] : List (String × FileInfo))) :=
  (c3_session_start_failed env403 "clip.mp4" [] "video/mp4"
      ⟨403, none, "forbidden-raw-body"⟩ rfl rfl rfl (by decide) rfl).1 (by decide)

/-- C3 counterexample: at the 403 environment the returned error message is
exactly `Upload session failed: 403`; the raw response body
`forbidden-raw-body` does not occur in it as a substring, refuting the claim
that the message includes the raw body. -/
theorem c3_counterexample :
    (upload_file_to_gemini env403 "clip.mp4" []).1 =
      UploadResult.error "Upload session failed: 403" ∧
    containsSubstr "Upload session failed: 403" "forbidden-raw-body" = false :=
  ⟨rfl, rfl⟩

/-- C4: a video whose size exceeds the 2 GiB cap fails with the
file-too-large error carrying the measured size, before any network request
is issued, and no `uploaded_files` record is created. -/
theorem c4_file_too_large (env : UploadEnv) (path : String)
    (uploaded : List (String × FileInfo)) (mt : String)
    (hacc : is_file_accessible env.resolve env.allowed_dirs path = true)
    (hex : env.fileExists = true)
    (hvf : video_formats.lookup env.suffix = some mt)
    (hsz : env.file_size > max_size) :
    upload_file_to_gemini env path uploaded =
      (UploadResult.error (file_too_large_msg env.file_size), [], uploaded) := by
  simp [upload_file_to_gemini, hacc, hex, hvf, hsz]

/-- C4 witness: the claim at a 2 GiB + 1 byte video. -/
theorem c4_witness :
    upload_file_to_gemini envBig "big.mp4" [] =
      (UploadResult.error (file_too_large_msg 2147483649), [],
       ([] : List (String × FileInfo))) :=
  c4_file_too_large envBig "big.mp4" [] "video/mp4" rfl rfl rfl (by decide)

/-- C5: `is_file_accessible` is true iff the path resolves and some resolved
allowed root is a string prefix of the resolved path; it is false (fails
closed, never raises) whenever resolution errors; and on the escaping path
`../../etc/passwd` under the single root `/home/user` (with a resolver that
normalises it to `/etc/passwd`) it is false.  The function is pure: its
value depends only on its arguments. -/
theorem c5_access_guard (resolve : String → Option String)
    (dirs : List String) (p : String) :
    (is_file_accessible resolve dirs p = true ↔
      ∃ rp, resolve p = some rp ∧ ∃ d ∈ dirs, startswith rp d = true) ∧
    (resolve p = none → is_file_accessible resolve dirs p = false) ∧
    is_file_accessible
      (fun s => if s = "../../etc/passwd" then some "/etc/passwd"
                else some ("/home/user/" ++ s))
      ["/home/user"] "../../etc/passwd" = false := by
  refine ⟨?_, ?_, by decide⟩
  · unfold is_file_accessible
    cases hr : resolve p with
    | none => simp
    | some rp => simp [List.any_eq_true]
  · intro hn
    simp [is_file_accessible, hn]

/-- C5 witness: fail-closed at a resolver that always errors. -/
theorem c5_witness :
    is_file_accessible (fun _ => (none : Option String)) ["/home/user"] "x" = false :=
  (c5_access_guard (fun _ => none) ["/home/user"] "x").2.1 rfl

/-- C6: after `call_gemini "hello"` against a remote answering HTTP 200 with
first-candidate text `"hi"`, the conversation store holds exactly two new
turns in order — the user turn `[Text "hello"]` then the model turn
`[Text "hi"]` — and the returned value is that candidate text; the
uploaded-files map is untouched. -/
theorem c6_round_trip (st : ChatState) (rest : List String) (body : String) :
    call_gemini "hello" (GenNetResult.ok ⟨200, "hi" :: rest, body⟩) st =
      ("hi", ⟨st.conversation_history ++ [user_turn "hello", model_turn "hi"],
        st.uploaded_files⟩) := by
  cases st with
  | mk h u => simp [call_gemini, gemini_contents]

/-- C7: `/clear` empties the conversation history and leaves the
uploaded-files map unchanged; `/cleanup` empties the uploaded-files map and
leaves the conversation history unchanged — each command modifies exactly
one of the two state structures. -/
theorem c7_clear_cleanup_frame (env : ShellEnv) (st : ChatState) :
    (process_message env "/clear" st).2.conversation_history = [] ∧
    (process_message env "/clear" st).2.uploaded_files = st.uploaded_files ∧
    (process_message env "/cleanup" st).2.uploaded_files = [] ∧
    (process_message env "/cleanup" st).2.conversation_history =
      st.conversation_history :=
  ⟨rfl, rfl, rfl, rfl⟩

/-- C9: with a non-empty uploaded-files map, the `/uploads` handler builds
its listing lines but never returns them and does not fall through to
another branch, so the router yields no response value (Python `None`) to
the shell instead of the formatted listing; the state is untouched. -/
theorem c9_uploads_no_response (env : ShellEnv) (st : ChatState)
    (h : st.uploaded_files ≠ []) :
    process_message env "/uploads" st = (none, st) := by
  have hne : st.uploaded_files.isEmpty = false := by
    cases hu : st.uploaded_files with
    | nil => exact absurd hu h
    | cons a l => rfl
  have hred : process_message env "/uploads" st =
      (if st.uploaded_files.isEmpty then (some "📁 No uploaded files", st)
       else (none, st)) := rfl
  rw [hred, hne]
  rfl

/-- C9 witness: the claim at a state holding one uploaded-file record. -/
theorem c9_witness : process_message env0 "/uploads" st1 = (none, st1) :=
  c9_uploads_no_response env0 st1 (by decide)

/-- Helper: on every failing response — non-200, 200 with an empty candidate
list, timeout, transport error, or any other exception — `call_gemini`
leaves the state with exactly the user turn appended. -/
theorem call_gemini_failure_state (st : ChatState) (msg : String)
    (r : GenNetResult) (h : gen_failure r) :
    (call_gemini msg r st).2 =
      { st with conversation_history :=
          st.conversation_history ++ [user_turn msg] } := by
  cases r with
  | ok g =>
    simp only [gen_failure] at h
    by_cases hs : g.status = 200
    · have hc : g.candidates = [] := by
        rcases h with h1 | h2
        · exact absurd hs h1
        · exact h2
      simp [call_gemini, gemini_contents, hs, hc]
    · simp [call_gemini, gemini_contents, hs]
  | timeout => rfl
  | requestError e => rfl
  | otherError e => rfl

/-- C10: on every failing chat send the user turn has already been appended
before the request and is not removed: the history ends up exactly one user
turn longer with no matching model turn, and that turn is part of the
`contents` payload of every subsequent request. -/
theorem c10_failure_keeps_user_turn (st : ChatState) (msg : String)
    (r : GenNetResult) (h : gen_failure r) :
    (call_gemini msg r st).2.conversation_history =
      st.conversation_history ++ [user_turn msg] ∧
    ∀ m2, user_turn msg ∈ gemini_contents m2 (call_gemini msg r st).2 := by
  have hstate := call_gemini_failure_state st msg r h
  constructor
  · rw [hstate]
  · intro m2
    rw [hstate]
    simp [gemini_contents]

/-- C10 witness: the claim at a timed-out request from the empty state,
with the follow-up payload instantiated at a concrete next message. -/
theorem c10_witness :
    (call_gemini "ping" GenNetResult.timeout ⟨[], []⟩).2.conversation_history =
      ([] : List Turn) ++ [user_turn "ping"] ∧
    user_turn "ping" ∈
      gemini_contents "next" (call_gemini "ping" GenNetResult.timeout ⟨[], []⟩).2 :=
  ⟨(c10_failure_keeps_user_turn ⟨[], []⟩ "ping" GenNetResult.timeout trivial).1,
   (c10_failure_keeps_user_turn ⟨[], []⟩ "ping" GenNetResult.timeout trivial).2 "next"⟩

/-- C8: classification is a total function of the (lowercased) extension and
guessed mime type, and the video-extension check precedes the text/code
checks, so every extension in the fixed video set yields `Video` regardless
of the guessed mime type — in particular `.mp4` is never `TextLike` even
when mime-guessing returns a `text/` type. -/
theorem c8_video_extension_priority (s : String) (mime : Option String)
    (h : s ∈ video_extensions) :
    classify s mime = Category.Video := by
  fin_cases h <;> rfl

/-- C8 witness: a `.mp4` with a guessed `text/plain` mime type is `Video`. -/
theorem c8_witness : classify ".mp4" (some "text/plain") = Category.Video :=
  c8_video_extension_priority ".mp4" (some "text/plain") (by decide)
